import Mathlib

/-!
Verification development for the devhub-signing-agent repository
(`src/libs/utils.js` and the older inline variant of `signxcarchive`).

The JavaScript code is shallowly embedded: every external tool invocation
(`exec` of a shell command) is a field of an environment structure supplying
that invocation's outcome, and each pipeline becomes a pure function from
the environment to an `Except` value.  A rejected `exec` promise carries its
error message; a thrown `new Error(msg)` is `JsError.thrown msg`; the
runtime crash from reading `.length` of `undefined` is `JsError.typeError`.

String operations mirror the JavaScript semantics used by the source:
`split` with a one-character separator, `trim`, `substr`, `includes`
(where every string contains the empty string), `path.basename`, and
array-to-string interpolation (comma join).
-/

deriving instance DecidableEq for Except

namespace SigningAgent

/-- Result of a resolved `child_process.exec` call: captured stdout and stderr. -/
structure ExecResult where
  stdout : String
  stderr : String
deriving DecidableEq, Repr

/-- Errors a pipeline run can reject with.
`thrown msg` is a `throw new Error(msg)`;
`typeError` is the runtime crash from accessing `.length` of `undefined`;
`execErr msg` is a rejected `exec` promise (failed shell command). -/
inductive JsError where
  | thrown (msg : String)
  | typeError
  | execErr (msg : String)
deriving DecidableEq, Repr

/-- Caller-observable rejection of `signxcarchive`: `undef` models
`Promise.reject()` with no cause (the opaque rejection produced after the
catch block); `cause e` models a rejection carrying the original error. -/
inductive Rejection where
  | undef
  | cause (e : JsError)
deriving DecidableEq, Repr

/-- JS `String.prototype.split` with a one-character separator, on char lists. -/
def splitOnCharList (sep : Char) : List Char → List (List Char)
  | [] => [[]]
  | c :: rest =>
    let r := splitOnCharList sep rest
    if c == sep then [] :: r
    else
      match r with
      | [] => [[c]]
      | h :: t => (c :: h) :: t

/-- JS `s.split(sep)` for a one-character separator (the source only splits
on `'\n'` and `' '`). -/
def jsSplit (s : String) (sep : Char) : List String :=
  (splitOnCharList sep s.toList).map String.mk

/-- JS whitespace test for `trim` (the characters that occur in this code's data). -/
def isJsSpace (c : Char) : Bool :=
  c == ' ' || c == '\t' || c == '\n' || c == '\r'

/-- JS `s.trim()`. -/
def jsTrim (s : String) : String :=
  String.mk (((s.toList.dropWhile isJsSpace).reverse.dropWhile isJsSpace).reverse)

/-- JS `s.substr(n)`: the suffix of `s` from index `n`. -/
def jsSubstrFrom (s : String) (n : Nat) : String :=
  String.mk (s.toList.drop n)

/-- JS `s.length`. -/
def jsLength (s : String) : Nat :=
  s.toList.length

/-- Substring occurrence on char lists: `needle` occurs contiguously in `hay`.
The empty needle occurs in every list, as in JS `includes`. -/
def containsList : List Char → List Char → Bool
  | hay, needle =>
    if needle.isPrefixOf hay then true
    else
      match hay with
      | [] => false
      | _ :: rest => containsList rest needle

/-- JS `s.includes(needle)`. -/
def jsIncludes (s needle : String) : Bool :=
  containsList s.toList needle.toList

/-- Trailing `'/'` characters removed, as Node's `path.basename` does. -/
def dropTrailingSlashes (l : List Char) : List Char :=
  (l.reverse.dropWhile (· == '/')).reverse

/-- Node `path.basename(p)`: the last path component of `p`. -/
def jsBasename (p : String) : String :=
  String.mk (((dropTrailingSlashes p.toList).reverse.takeWhile (fun c => c != '/')).reverse)

/-- JS template-literal interpolation of an array: `Array.prototype.toString`,
a comma join of the elements. -/
def joinWithComma : List String → String
  | [] => ""
  | [x] => x
  | x :: xs => x ++ "," ++ joinWithComma xs

/-- `currentValidSigningIdentities` (utils.js lines 120-131), applied to the
stdout of the `security find-identity -p codesigning -v` invocation, which
the environment supplies:
`stdout.split('\n').slice(0, -2).map(item => item.trim().substr(3))`. -/
def currentValidSigningIdentities (stdout : String) : List String :=
  ((jsSplit stdout '\n').dropLast.dropLast).map (fun item => jsSubstrFrom (jsTrim item) 3)

/-- `uniqueSigningIdentifierForValue` (utils.js lines 146-154), applied to the
already-fetched identity list `cids`.
`cids.find(item => item.includes(value))` yields `undefined` when no entry
matches, and the subsequent `matches.length` access then crashes with a
TypeError; a matched empty entry returns `undefined` (here `none`); otherwise
the result is `matches.split(' ')[0].trim()`. -/
def uniqueSigningIdentifierForValue (cids : List String) (value : String) :
    Except JsError (Option String) :=
  match cids.find? (fun item => jsIncludes item value) with
  | none => .error .typeError
  | some m =>
    if jsLength m == 0 then .ok none
    else .ok (some (jsTrim ((jsSplit m ' ').headD "")))

/-! ### The xcarchive pipeline

`XcEnv` supplies the outcome of every external command the pipeline runs:
the `mkdir`/`unzip` extraction, the `find` locator, one `xcodebuild
-exportArchive` per located element, and the delivery `zip`.  The `zip`
command ends in `&& echo 'OK' || echo 'FAIL'`, so its exec always resolves
and only its captured output matters. -/

/-- Environment of external-tool outcomes for one `signxcarchive` run. -/
structure XcEnv where
  extract : Except String Unit
  findXc : Except String ExecResult
  exportTool : String → Except String ExecResult
  zipExec : ExecResult

/-- The element list mapped over by the export stage (utils.js line 213):
`findResult.stdout.trim().split('\n')`. -/
def xcElements (stdout : String) : List String :=
  jsSplit (jsTrim stdout) '\n'

/-- The success marker test (utils.js line 227): `stdout.includes('EXPORT SUCCEEDED')`. -/
def exportMarker (r : ExecResult) : Bool :=
  jsIncludes r.stdout "EXPORT SUCCEEDED"

/-- The parsed first output line (utils.js lines 228-229):
`stdout.trim().split('\n')[0].split(' ')`. -/
def firstLineComponents (r : ExecResult) : List String :=
  jsSplit ((jsSplit (jsTrim r.stdout) '\n').headD "") ' '

/-- The `response.forEach` collection loop (utils.js lines 225-236): each
successful export must have exactly 4 first-line components, and contributes
its last component (`components.pop()`); a non-successful export is skipped;
a malformed successful report throws, aborting the whole loop. -/
def collectItems : List ExecResult → List String → Except JsError (List String)
  | [], items => .ok items
  | r :: rest, items =>
    if exportMarker r then
      if (firstLineComponents r).length != 4 then
        .error (.thrown "Unexpected response from archive export")
      else collectItems rest (items ++ [(firstLineComponents r).getLastD ""])
    else collectItems rest items

/-- The body of `signxcarchive`'s try block up to the collected item list
(utils.js lines 205-236, identically lines 33-73 of the older variant):
extraction, the `find` locator with its stderr check, the export fan-out,
and the collection loop. -/
def xcTryBody (env : XcEnv) : Except JsError (List String) :=
  match env.extract with
  | .error msg => .error (.execErr msg)
  | .ok () =>
    match env.findXc with
    | .error msg => .error (.execErr msg)
    | .ok fr =>
      if fr.stderr != "" then .error (.thrown "Unable to find xcarchive(s) in package")
      else
        match (xcElements fr.stdout).mapM env.exportTool with
        | .error msg => .error (.execErr msg)
        | .ok rs => collectItems rs []

/-- `packageForDelivery` (utils.js lines 181-194): the zip invocation fails
the packaging step when it emits anything on stderr or reports `FAIL`;
otherwise the delivery archive holds the basenames of the items
(`items.map(i => path.basename(i))`).  The value returned is the entry list
of the delivery archive (the archive path itself is an opaque fresh name). -/
def packageForDelivery (zipExec : ExecResult) (items : List String) :
    Except JsError (List String) :=
  if zipExec.stderr != "" || jsIncludes zipExec.stdout "FAIL" then
    .error (.thrown "Unable to create delivery package")
  else .ok (items.map jsBasename)

/-- The newer `signxcarchive` (utils.js lines 204-246).  Any error inside the
try block is caught, logged, and surfaces as the opaque `Promise.reject()`.
The packaging step, however, is started on line 238 *without* `await`
(`const deliveryFile = packageForDelivery(...)`) and its promise is returned
from the try block, so a packaging error escapes the catch and reaches the
caller with its original cause. -/
def signxcarchive (env : XcEnv) : Except Rejection (List String) :=
  match xcTryBody env with
  | .error _ => .error .undef
  | .ok items =>
    match packageForDelivery env.zipExec items with
    | .error e => .error (.cause e)
    | .ok entries => .ok entries

/-- The file argument the older variant passes to its zip command
(part_000 line 77): the template literal `${items}` interpolates the array
via `Array.prototype.toString`, a comma join, producing one shell word
(empty when the array is empty, hence no file argument). -/
def oldZipArgs (items : List String) : List String :=
  if items.isEmpty then [] else [joinWithComma items]

/-- The older inline `signxcarchive` (part_000 lines 32-91): identical to the
newer one through the collection loop, but the packaging zip runs inline
under `await` inside the try block, so a packaging failure is caught and
surfaces as the same opaque rejection as every other stage error. -/
def signxcarchiveOld (env : XcEnv) : Except Rejection (List String) :=
  match xcTryBody env with
  | .error _ => .error .undef
  | .ok items =>
    if env.zipExec.stderr != "" || jsIncludes env.zipExec.stdout "FAIL" then
      .error .undef
    else .ok (oldZipArgs items)

/-! ### The ipa pipeline -/

/-- Environment of external-tool outcomes for one `signipaarchive` run.
`unzip` is the per-index ipa extraction; `authority` is the stdout of the
per-index `codesign -d | grep Authority | head -1 | awk` pipeline;
`security` is the stdout of `security find-identity -p codesigning -v`
(the trust store is queried afresh on every call but assumed stable within
one run); `resign` is the per-index `codesign -f -s <identity> && zip && mv`
command, given the identity string it is invoked with. -/
structure IpaEnv where
  extract : Except String Unit
  findIpa : Except String ExecResult
  unzip : Nat → Except String Unit
  authority : Nat → Except String String
  security : Except String String
  resign : Nat → String → Except String Unit
  zipExec : ExecResult

/-- `extractCurrentSigningIdentifier` (utils.js lines 133-144): runs the
codesign/grep/awk pipeline, then awaits `currentValidSigningIdentities()`
(result discarded, but a failure of that security query propagates), and
returns `stdout.trim()`. -/
def extractCurrentSigningIdentifier (env : IpaEnv) (index : Nat) :
    Except JsError String :=
  match env.authority index with
  | .error msg => .error (.execErr msg)
  | .ok out =>
    match env.security with
    | .error msg => .error (.execErr msg)
    | .ok _ => .ok (jsTrim out)

/-- The located-bundle list of the ipa pipeline (utils.js lines 267-269):
`findResult.stdout.split('\n').filter(item => item && !item.includes('__MACOSX'))`. -/
def ipaResults (stdout : String) : List String :=
  (jsSplit stdout '\n').filter (fun item => item != "" && !(jsIncludes item "__MACOSX"))

/-- The sequential per-bundle loop of `signipaarchive` (utils.js lines
270-302).  The output file name (the ipa's basename) is pushed onto `items`
*before* the signing steps run; then the bundle is unzipped, the existing
authority is extracted, an identity is resolved against the freshly fetched
identity list, a falsy resolution throws the no-match error, and the bundle
is re-signed with the resolved identity string. -/
def ipaLoop (env : IpaEnv) : List String → Nat → List String → Except JsError (List String)
  | [], _, items => .ok items
  | value :: rest, index, items =>
    let items2 := items ++ [jsBasename (jsTrim value)]
    match env.unzip index with
    | .error msg => .error (.execErr msg)
    | .ok () =>
      match extractCurrentSigningIdentifier env index with
      | .error e => .error e
      | .ok certIdentifier =>
        match env.security with
        | .error msg => .error (.execErr msg)
        | .ok secOut =>
          match uniqueSigningIdentifierForValue
              (currentValidSigningIdentities secOut) certIdentifier with
          | .error e => .error e
          | .ok none => .error (.thrown "No match to current signing identity")
          | .ok (some s) =>
            if s == "" then .error (.thrown "No match to current signing identity")
            else
              match env.resign index s with
              | .error msg => .error (.execErr msg)
              | .ok () => ipaLoop env rest (index + 1) items2

/-- `signipaarchive` (utils.js lines 256-305): extraction, the `find`
locator with its stderr check, the metadata-shadow filter, the sequential
re-sign loop, and `packageForDelivery`.  There is no try/catch anywhere in
this function: every stage error propagates to the caller unchanged. -/
def signipaarchive (env : IpaEnv) : Except JsError (List String) :=
  match env.extract with
  | .error msg => .error (.execErr msg)
  | .ok () =>
    match env.findIpa with
    | .error msg => .error (.execErr msg)
    | .ok fr =>
      if fr.stderr != "" then .error (.thrown "Unable to find xcarchive(s) in package")
      else
        match ipaLoop env (ipaResults fr.stdout) 0 [] with
        | .error e => .error e
        | .ok items => packageForDelivery env.zipExec items

/-! ### Helper lemmas -/

/-- Every string contains the empty string, as JS `includes` does. -/
lemma jsIncludes_empty (s : String) : jsIncludes s "" = true := by
  unfold jsIncludes
  show containsList s.toList [] = true
  unfold containsList
  simp [List.isPrefixOf]

/-- `jsLength` vanishes exactly on the empty string. -/
lemma jsLength_eq_zero_iff (s : String) : jsLength s = 0 ↔ s = "" := by
  cases s with
  | mk data =>
    cases data with
    | nil => simp [jsLength, String.toList]
    | cons a l =>
      simp only [jsLength, String.toList, List.length_cons]
      constructor
      · intro h; exact absurd h (by omega)
      · intro h
        have hd := congrArg String.data h
        simp at hd

/-- Rebuilding a string from its char list is the identity. -/
lemma stringMk_toList (s : String) : String.mk s.toList = s := by
  cases s; rfl

lemma dropWhile_eq_self_of_forall {p : Char → Bool} :
    ∀ l : List Char, (∀ c ∈ l, p c = false) → l.dropWhile p = l
  | [], _ => rfl
  | c :: rest, h => by
    have hc : p c = false := h c (by simp)
    simp [List.dropWhile, hc]

lemma takeWhile_eq_self_of_forall {p : Char → Bool} :
    ∀ l : List Char, (∀ c ∈ l, p c = true) → l.takeWhile p = l
  | [], _ => rfl
  | c :: rest, h => by
    have hc : p c = true := h c (by simp)
    simp [List.takeWhile, hc, takeWhile_eq_self_of_forall rest (fun d hd => h d (by simp [hd]))]

/-- No character of `jsBasename p` is a slash. -/
lemma jsBasename_no_slash (p : String) :
    ∀ c ∈ (jsBasename p).toList, (c != '/') = true := by
  intro c hc
  simp only [jsBasename, String.toList, List.mem_reverse] at hc
  have := List.mem_takeWhile_imp (p := fun c => c != '/') hc
  simpa using this

/-- Node `path.basename` is idempotent. -/
lemma jsBasename_idem (p : String) : jsBasename (jsBasename p) = jsBasename p := by
  have hns := jsBasename_no_slash p
  have hns' : ∀ c ∈ (jsBasename p).toList, (c == '/') = false := by
    intro c hc
    have := hns c hc
    simpa [bne] using this
  conv_lhs => rw [jsBasename]
  rw [dropTrailingSlashes]
  rw [dropWhile_eq_self_of_forall _ (fun c hc => hns' c (List.mem_reverse.mp hc))]
  rw [List.reverse_reverse]
  rw [takeWhile_eq_self_of_forall _ (fun c hc => hns c (List.mem_reverse.mp hc))]
  rw [List.reverse_reverse]
  exact stringMk_toList _

/-- The artifact tokens contributed by the successful exports of a response
batch, in batch order: for each response whose output carries the success
marker, the last component of its first output line. -/
def successItems (l : List ExecResult) : List String :=
  l.filterMap (fun r =>
    if exportMarker r then some ((firstLineComponents r).getLastD "") else none)

/-- When every successful report in the batch is well-formed (exactly 4
first-line components), the collection loop succeeds and appends exactly the
successful exports' last tokens. -/
lemma collectItems_ok :
    ∀ l : List ExecResult,
      (∀ r ∈ l, exportMarker r = true → (firstLineComponents r).length = 4) →
      ∀ acc, collectItems l acc = .ok (acc ++ successItems l)
  | [], _, acc => by simp [collectItems, successItems]
  | r :: rest, h, acc => by
    have hrest : ∀ r' ∈ rest, exportMarker r' = true → (firstLineComponents r').length = 4 :=
      fun r' hr' => h r' (by simp [hr'])
    by_cases hm : exportMarker r = true
    · have h4 : (firstLineComponents r).length = 4 := h r (by simp) hm
      simp only [collectItems, hm, if_true, h4]
      norm_num
      rw [collectItems_ok rest hrest]
      simp [successItems, hm]
    · simp only [collectItems, hm]
      norm_num
      rw [collectItems_ok rest hrest]
      simp only [Bool.not_eq_true] at hm
      simp [successItems, hm]

/-- When some successful report in the batch is malformed, the collection
loop fails with the unexpected-response error, whatever the accumulator. -/
lemma collectItems_error :
    ∀ l : List ExecResult,
      (∃ r ∈ l, exportMarker r = true ∧ (firstLineComponents r).length ≠ 4) →
      ∀ acc, collectItems l acc = .error (.thrown "Unexpected response from archive export")
  | [], h, _ => by simp at h
  | r :: rest, h, acc => by
    obtain ⟨r', hr', hm', h4'⟩ := h
    by_cases hm : exportMarker r = true
    · by_cases h4 : (firstLineComponents r).length = 4
      · have hrest : ∃ r'' ∈ rest, exportMarker r'' = true ∧ (firstLineComponents r'').length ≠ 4 := by
          rcases List.mem_cons.mp hr' with heq | hmem
          · subst heq; exact absurd h4 h4'
          · exact ⟨r', hmem, hm', h4'⟩
        simp only [collectItems, hm, if_true, h4]
        norm_num
        exact collectItems_error rest hrest _
      · simp only [collectItems, hm, if_true]
        have : ((firstLineComponents r).length != 4) = true := by
          simpa using h4
        simp [this]
    · have hrest : ∃ r'' ∈ rest, exportMarker r'' = true ∧ (firstLineComponents r'').length ≠ 4 := by
        rcases List.mem_cons.mp hr' with heq | hmem
        · subst heq; exact absurd hm' hm
        · exact ⟨r', hmem, hm', h4'⟩
      simp only [collectItems, hm]
      norm_num
      exact collectItems_error rest hrest _

/-! ### Claim C1 -/

/-- A run with one located ipa whose extracted authority (`ZZZ Authority`)
is contained in no currently valid identity: the identity list parses to the
single entry `AAAA "Cert A"`. -/
def envNoMatch : IpaEnv := {
  extract := .ok ()
  findIpa := .ok ⟨"app.ipa\n", ""⟩
  unzip := fun _ => .ok ()
  authority := fun _ => .ok "ZZZ Authority"
  security := .ok "  1) AAAA \"Cert A\"\n  1 valid identities found\n"
  resign := fun _ _ => .ok ()
  zipExec := ⟨"OK", ""⟩ }

/-- C1: when no currently valid identity contains the bundle's extracted raw
authority string, `cids.find` yields `undefined` and the subsequent
`matches.length` access crashes with a TypeError, so the resolver does not
return `undefined` and the run rejects with the TypeError, not with the
`No match to current signing identity` error; no delivery archive is
produced either way. -/
theorem noMatch_run_crashes_with_typeError :
    uniqueSigningIdentifierForValue
        (currentValidSigningIdentities "  1) AAAA \"Cert A\"\n  1 valid identities found\n")
        "ZZZ Authority" = .error .typeError ∧
    signipaarchive envNoMatch = .error .typeError ∧
    signipaarchive envNoMatch ≠ .error (.thrown "No match to current signing identity") := by
  decide

/-! ### Claim C2 -/

/-- C2 counterexample: applied to the empty authority string of an unsigned
bundle, resolution does not fail to find a match — JS `includes('')` is true
for every string, so the first identity of the list is returned. -/
theorem empty_value_matches_first_identity_cex :
    uniqueSigningIdentifierForValue ["AAAA \"Cert A\""] "" = .ok (some "AAAA") ∧
    (Except.ok (some "AAAA") : Except JsError (Option String)) ≠ .ok none := by
  decide

/-- C2 amended: for every non-empty identity list whose first entry is
non-empty, resolution applied to the empty string returns the first entry's
leading space-separated token, because every string contains the empty
substring. -/
theorem empty_value_resolves_to_first_entry (c : String) (cs : List String) (hc : c ≠ "") :
    uniqueSigningIdentifierForValue (c :: cs) "" =
      .ok (some (jsTrim ((jsSplit c ' ').headD ""))) := by
  unfold uniqueSigningIdentifierForValue
  have hfind : (c :: cs).find? (fun item => jsIncludes item "") = some c := by
    simp [List.find?, jsIncludes_empty c]
  rw [hfind]
  have hlen : (jsLength c == 0) = false := by
    have : jsLength c ≠ 0 := fun h => hc ((jsLength_eq_zero_iff c).mp h)
    simpa using this
  simp [hlen]

/-- C2 amended, witnessed at a two-entry list: the first entry wins. -/
theorem empty_value_resolves_to_first_entry_witness :
    uniqueSigningIdentifierForValue ["BBBB \"Cert B\"", "AAAA \"Cert A\""] "" =
      .ok (some "BBBB") := by
  have h := empty_value_resolves_to_first_entry "BBBB \"Cert B\"" ["AAAA \"Cert A\""] (by decide)
  exact h.trans (by decide)

/-! ### Claim C3 -/

/-- C3: for a run locating exactly one ipa `p` whose extracted authority is
contained in some currently valid identity, resolution returns the leading
token of the *first* matching entry `m` in list order; the bundle is
re-signed with exactly that identity (the environment's resign command
accepts no other identity string, and the run still succeeds); and the
delivery archive holds exactly one entry, the original ipa's basename. -/
theorem matched_ipa_delivers_original_basename
    (s p auth secOut m : String) (env : IpaEnv)
    (hres : ipaResults s = [p])
    (hp : jsTrim p = p)
    (hfind : (currentValidSigningIdentities secOut).find?
        (fun item => jsIncludes item (jsTrim auth)) = some m)
    (hid : jsTrim ((jsSplit m ' ').headD "") ≠ "")
    (henv : env = {
      extract := .ok ()
      findIpa := .ok ⟨s, ""⟩
      unzip := fun _ => .ok ()
      authority := fun _ => .ok auth
      security := .ok secOut
      resign := fun _ sig =>
        if sig == jsTrim ((jsSplit m ' ').headD "") then .ok ()
        else .error "re-signed with an unexpected identity"
      zipExec := ⟨"OK", ""⟩ }) :
    uniqueSigningIdentifierForValue (currentValidSigningIdentities secOut) (jsTrim auth) =
      .ok (some (jsTrim ((jsSplit m ' ').headD ""))) ∧
    signipaarchive env = .ok [jsBasename p] := by
  subst henv
  have hm : m ≠ "" := by
    intro h
    subst h
    exact hid (by decide)
  have hlen : (jsLength m == 0) = false := by
    have : jsLength m ≠ 0 := fun h => hm ((jsLength_eq_zero_iff m).mp h)
    simpa using this
  have huniq : uniqueSigningIdentifierForValue
      (currentValidSigningIdentities secOut) (jsTrim auth) =
      .ok (some (jsTrim ((jsSplit m ' ').headD ""))) := by
    unfold uniqueSigningIdentifierForValue
    rw [hfind]
    simp [hlen]
  have hfalse : ((jsTrim ((jsSplit m ' ').headD "")) == "") = false :=
    beq_eq_false_iff_ne.mpr hid
  refine ⟨huniq, ?_⟩
  simp only [signipaarchive, hres, ipaLoop, extractCurrentSigningIdentifier, huniq, hfalse,
    beq_self_eq_true, if_true, if_false, packageForDelivery, List.map_cons, List.map_nil,
    List.nil_append, hp, jsBasename_idem]
  rw [if_neg (by decide), if_neg (by decide)]
  simp +decide [jsBasename_idem]

/-- C3 witnessed at the spec's scenario: authority
`Apple Distribution: Example Org (ABCDE12345)` matches the sole identity
entry, the resolver returns its hash token `AAAA`, and the delivery archive
holds the single entry `app.ipa`. -/
theorem matched_ipa_delivers_original_basename_witness :
    uniqueSigningIdentifierForValue
        (currentValidSigningIdentities
          "  1) AAAA \"Apple Distribution: Example Org (ABCDE12345)\"\n  1 valid identities found\n")
        (jsTrim "Apple Distribution: Example Org (ABCDE12345)") = .ok (some "AAAA") ∧
    signipaarchive {
      extract := .ok ()
      findIpa := .ok ⟨"work/app.ipa\n", ""⟩
      unzip := fun _ => .ok ()
      authority := fun _ => .ok "Apple Distribution: Example Org (ABCDE12345)"
      security := .ok
        "  1) AAAA \"Apple Distribution: Example Org (ABCDE12345)\"\n  1 valid identities found\n"
      resign := fun _ sig =>
        if sig == jsTrim ((jsSplit "AAAA \"Apple Distribution: Example Org (ABCDE12345)\"" ' ').headD "")
        then .ok ()
        else .error "re-signed with an unexpected identity"
      zipExec := ⟨"OK", ""⟩ } = .ok ["app.ipa"] := by
  have h := matched_ipa_delivers_original_basename
    "work/app.ipa\n" "work/app.ipa"
    "Apple Distribution: Example Org (ABCDE12345)"
    "  1) AAAA \"Apple Distribution: Example Org (ABCDE12345)\"\n  1 valid identities found\n"
    "AAAA \"Apple Distribution: Example Org (ABCDE12345)\""
    _ (by decide) (by decide) (by decide) (by decide) rfl
  exact ⟨h.1.trans (by decide), h.2.trans (by decide)⟩

/-! ### Claim C4 -/

/-- C4: if any export response in the batch carries the success marker but
its first output line does not split into exactly 4 whitespace-separated
components, the collection loop throws the unexpected-response error and the
whole `signxcarchive` run fails (surfacing to the caller as the caught,
opaque rejection), even when every other export in the batch is well-formed. -/
theorem malformed_success_fails_whole_run
    (env : XcEnv) (fr : ExecResult) (rs : List ExecResult)
    (hx : env.extract = .ok ()) (hf : env.findXc = .ok fr) (hs : fr.stderr = "")
    (hm : (xcElements fr.stdout).mapM env.exportTool = .ok rs)
    (hbad : ∃ r ∈ rs, exportMarker r = true ∧ (firstLineComponents r).length ≠ 4) :
    xcTryBody env = .error (.thrown "Unexpected response from archive export") ∧
    signxcarchive env = .error .undef := by
  have hbody : xcTryBody env = .error (.thrown "Unexpected response from archive export") := by
    simp only [xcTryBody, hx, hf, hs, hm]
    rw [if_neg (by decide)]
    exact collectItems_error rs hbad []
  exact ⟨hbody, by simp [signxcarchive, hbody]⟩

/-- One well-formed successful export (archive `A`) alongside one successful
export whose first line has only 3 components (archive `B`). -/
def envMalformed : XcEnv := {
  extract := .ok ()
  findXc := .ok ⟨"A.xcarchive\nB.xcarchive", ""⟩
  exportTool := fun el =>
    if el == "A.xcarchive" then .ok ⟨"a b c out/App.ipa\nEXPORT SUCCEEDED", ""⟩
    else .ok ⟨"x y z\nEXPORT SUCCEEDED", ""⟩
  zipExec := ⟨"OK", ""⟩ }

/-- C4 witnessed: the malformed success of `B` aborts the whole run even
though `A`'s export succeeded with a well-formed report. -/
theorem malformed_success_fails_whole_run_witness :
    xcTryBody envMalformed = .error (.thrown "Unexpected response from archive export") ∧
    signxcarchive envMalformed = .error .undef :=
  malformed_success_fails_whole_run envMalformed ⟨"A.xcarchive\nB.xcarchive", ""⟩
    [⟨"a b c out/App.ipa\nEXPORT SUCCEEDED", ""⟩, ⟨"x y z\nEXPORT SUCCEEDED", ""⟩]
    rfl rfl rfl (by decide) (by decide)

/-! ### Claim C5 -/

/-- C5: export responses that lack the `EXPORT SUCCEEDED` marker are
silently skipped, and when every successful report is well-formed and the
zip invocation is clean, the delivery archive's entries are exactly the
basenames of the last first-line tokens of the successful exports, in batch
order. -/
theorem unsuccessful_exports_skipped
    (env : XcEnv) (fr : ExecResult) (rs : List ExecResult)
    (hx : env.extract = .ok ()) (hf : env.findXc = .ok fr) (hs : fr.stderr = "")
    (hm : (xcElements fr.stdout).mapM env.exportTool = .ok rs)
    (hgood : ∀ r ∈ rs, exportMarker r = true → (firstLineComponents r).length = 4)
    (hzs : env.zipExec.stderr = "") (hzf : jsIncludes env.zipExec.stdout "FAIL" = false) :
    signxcarchive env = .ok ((successItems rs).map jsBasename) := by
  have hbody : xcTryBody env = .ok (successItems rs) := by
    simp only [xcTryBody, hx, hf, hs, hm]
    rw [if_neg (by decide)]
    simpa using collectItems_ok rs hgood []
  simp only [signxcarchive, hbody, packageForDelivery, hzs, hzf]
  rw [if_neg (by decide)]

/-- Export of `A` succeeds producing `out/A/App.ipa`; export of `B` reports
no success marker. -/
def envPartial : XcEnv := {
  extract := .ok ()
  findXc := .ok ⟨"A.xcarchive\nB.xcarchive", ""⟩
  exportTool := fun el =>
    if el == "A.xcarchive" then .ok ⟨"a b c out/A/App.ipa\nEXPORT SUCCEEDED", ""⟩
    else .ok ⟨"error: export failed", ""⟩
  zipExec := ⟨"OK", ""⟩ }

/-- C5 witnessed at the spec's scenario: `A` succeeds, `B` fails without a
marker, and the delivery archive contains only `App.ipa`. -/
theorem unsuccessful_exports_skipped_witness :
    signxcarchive envPartial = .ok ["App.ipa"] := by
  have h := unsuccessful_exports_skipped envPartial ⟨"A.xcarchive\nB.xcarchive", ""⟩
    [⟨"a b c out/A/App.ipa\nEXPORT SUCCEEDED", ""⟩, ⟨"error: export failed", ""⟩]
    rfl rfl rfl (by decide) (by decide) rfl (by decide)
  exact h.trans (by decide)

/-! ### Claim C6 -/

/-- A run whose only failure is the packaging zip reporting `FAIL`. -/
def envZipRejected : XcEnv := {
  extract := .ok ()
  findXc := .ok ⟨"A.xcarchive", ""⟩
  exportTool := fun _ => .ok ⟨"a b c out/App.ipa\nEXPORT SUCCEEDED", ""⟩
  zipExec := ⟨"FAIL", ""⟩ }

/-- A run whose locator `find` emits on stderr. -/
def envFindErr : XcEnv := {
  extract := .ok ()
  findXc := .ok ⟨"", "find: boom"⟩
  exportTool := fun _ => .ok ⟨"", ""⟩
  zipExec := ⟨"OK", ""⟩ }

/-- C6 counterexample: two failure causes observed differently by the
caller.  A packaging failure reaches the caller carrying its original error
(the packaging promise is returned without `await` inside the try block and
so escapes the catch), while a locator failure surfaces as the opaque
`Promise.reject()` — so `signxcarchive` does not convert every failure into
the same opaque rejection. -/
theorem xcarchive_rejections_distinguishable_cex :
    signxcarchive envZipRejected = .error (.cause (.thrown "Unable to create delivery package")) ∧
    signxcarchive envFindErr = .error .undef ∧
    signxcarchive envZipRejected ≠ signxcarchive envFindErr := by
  decide

/-- C6 amended: every error of the extraction, location, export, or
result-parsing stages (the try-block body) is caught and surfaces as the
opaque cause-less rejection; a packaging-stage error is not caught and
reaches the caller with the original packaging error. -/
theorem xcarchive_catch_policy (env : XcEnv) :
    (∀ e, xcTryBody env = .error e → signxcarchive env = .error .undef) ∧
    (∀ items, xcTryBody env = .ok items →
      (env.zipExec.stderr != "" || jsIncludes env.zipExec.stdout "FAIL") = true →
      signxcarchive env = .error (.cause (.thrown "Unable to create delivery package"))) := by
  constructor
  · intro e he
    simp [signxcarchive, he]
  · intro items hi hz
    simp [signxcarchive, hi, packageForDelivery, hz]

/-- C6 amended, witnessed at a caught locator failure and an uncaught
packaging failure. -/
theorem xcarchive_catch_policy_witness :
    signxcarchive envFindErr = .error .undef ∧
    signxcarchive envZipRejected = .error (.cause (.thrown "Unable to create delivery package")) :=
  ⟨(xcarchive_catch_policy envFindErr).1
      (.thrown "Unable to find xcarchive(s) in package") (by decide),
   (xcarchive_catch_policy envZipRejected).2 ["out/App.ipa"] (by decide) (by decide)⟩

/-! ### Claim C7 -/

/-- C7: `signipaarchive` has no internal catch — whichever stage fails, at
whichever bundle, the caller receives that stage's original error unchanged.
Conjuncts, in order: (1) workspace-extraction exec failure; (2) locator exec
failure; (3) locator stderr emission (the thrown locator error); (4) any
error produced anywhere inside the sequential signing loop reaches the
caller unchanged; (5) a rejected packaging zip after any successful loop
(the thrown packaging error).  Then, for the loop at an arbitrary bundle
position (any head bundle, index and accumulator, hence by (4) any failing
bundle of a run): (6) per-bundle unzip exec failure; (7) authority-query
exec failure; (8) security identity-listing exec failure; (9) the
resolver's TypeError when no identity contains the extracted authority;
(10) the thrown no-match error on a falsy resolved identifier; (11) resign
exec failure. -/
theorem ipa_errors_propagate :
    (∀ (env : IpaEnv) msg, env.extract = .error msg →
      signipaarchive env = .error (.execErr msg)) ∧
    (∀ (env : IpaEnv) msg, env.extract = .ok () → env.findIpa = .error msg →
      signipaarchive env = .error (.execErr msg)) ∧
    (∀ (env : IpaEnv) fr, env.extract = .ok () → env.findIpa = .ok fr → fr.stderr ≠ "" →
      signipaarchive env = .error (.thrown "Unable to find xcarchive(s) in package")) ∧
    (∀ (env : IpaEnv) fr e, env.extract = .ok () → env.findIpa = .ok fr →
      fr.stderr = "" → ipaLoop env (ipaResults fr.stdout) 0 [] = .error e →
      signipaarchive env = .error e) ∧
    (∀ (env : IpaEnv) fr items, env.extract = .ok () → env.findIpa = .ok fr →
      fr.stderr = "" → ipaLoop env (ipaResults fr.stdout) 0 [] = .ok items →
      (env.zipExec.stderr != "" || jsIncludes env.zipExec.stdout "FAIL") = true →
      signipaarchive env = .error (.thrown "Unable to create delivery package")) ∧
    (∀ (env : IpaEnv) value rest index items msg, env.unzip index = .error msg →
      ipaLoop env (value :: rest) index items = .error (.execErr msg)) ∧
    (∀ (env : IpaEnv) value rest index items msg, env.unzip index = .ok () →
      env.authority index = .error msg →
      ipaLoop env (value :: rest) index items = .error (.execErr msg)) ∧
    (∀ (env : IpaEnv) value rest index items out msg, env.unzip index = .ok () →
      env.authority index = .ok out → env.security = .error msg →
      ipaLoop env (value :: rest) index items = .error (.execErr msg)) ∧
    (∀ (env : IpaEnv) value rest index items out secOut, env.unzip index = .ok () →
      env.authority index = .ok out → env.security = .ok secOut →
      (currentValidSigningIdentities secOut).find?
        (fun item => jsIncludes item (jsTrim out)) = none →
      ipaLoop env (value :: rest) index items = .error .typeError) ∧
    (∀ (env : IpaEnv) value rest index items out secOut sid, env.unzip index = .ok () →
      env.authority index = .ok out → env.security = .ok secOut →
      uniqueSigningIdentifierForValue (currentValidSigningIdentities secOut) (jsTrim out) =
        .ok sid →
      sid = none ∨ sid = some "" →
      ipaLoop env (value :: rest) index items =
        .error (.thrown "No match to current signing identity")) ∧
    (∀ (env : IpaEnv) value rest index items out secOut s msg, env.unzip index = .ok () →
      env.authority index = .ok out → env.security = .ok secOut →
      uniqueSigningIdentifierForValue (currentValidSigningIdentities secOut) (jsTrim out) =
        .ok (some s) →
      s ≠ "" → env.resign index s = .error msg →
      ipaLoop env (value :: rest) index items = .error (.execErr msg)) := by
  refine ⟨?_, ?_, ?_, ?_, ?_, ?_, ?_, ?_, ?_, ?_, ?_⟩
  · intro env msg h
    simp [signipaarchive, h]
  · intro env msg hx hf
    simp [signipaarchive, hx, hf]
  · intro env fr hx hf hne
    have hb : (fr.stderr != "") = true := bne_iff_ne.mpr hne
    simp [signipaarchive, hx, hf, hb]
  · intro env fr e hx hf hs hloop
    simp only [signipaarchive, hx, hf, hs]
    rw [if_neg (by decide)]
    simp [hloop]
  · intro env fr items hx hf hs hloop hz
    simp only [signipaarchive, hx, hf, hs]
    rw [if_neg (by decide)]
    simp [hloop, packageForDelivery, hz]
  · intro env value rest index items msg hu
    simp [ipaLoop, hu]
  · intro env value rest index items msg hu ha
    simp [ipaLoop, hu, extractCurrentSigningIdentifier, ha]
  · intro env value rest index items out msg hu ha hsec
    simp [ipaLoop, hu, extractCurrentSigningIdentifier, ha, hsec]
  · intro env value rest index items out secOut hu ha hsec hfind
    have huniq : uniqueSigningIdentifierForValue
        (currentValidSigningIdentities secOut) (jsTrim out) = .error .typeError := by
      unfold uniqueSigningIdentifierForValue
      rw [hfind]
    simp [ipaLoop, hu, extractCurrentSigningIdentifier, ha, hsec, huniq]
  · intro env value rest index items out secOut sid hu ha hsec huniq hsid
    rcases hsid with h | h <;> subst h <;>
      simp [ipaLoop, hu, extractCurrentSigningIdentifier, ha, hsec, huniq]
  · intro env value rest index items out secOut s msg hu ha hsec huniq hne hres
    have hb : (s == "") = false := beq_eq_false_iff_ne.mpr hne
    simp [ipaLoop, hu, extractCurrentSigningIdentifier, ha, hsec, huniq, hb, hres]

/-- An ipa run whose workspace extraction exec rejects. -/
def envExtractFail : IpaEnv := {
  extract := .error "unzip: cannot open archive"
  findIpa := .ok ⟨"", ""⟩
  unzip := fun _ => .ok ()
  authority := fun _ => .ok ""
  security := .ok ""
  resign := fun _ _ => .ok ()
  zipExec := ⟨"OK", ""⟩ }

/-- An ipa run whose locator `find` exec rejects. -/
def envIpaFindFail : IpaEnv := {
  extract := .ok ()
  findIpa := .error "find: spawn failure"
  unzip := fun _ => .ok ()
  authority := fun _ => .ok ""
  security := .ok ""
  resign := fun _ _ => .ok ()
  zipExec := ⟨"OK", ""⟩ }

/-- An ipa run whose locator `find` emits on stderr. -/
def envIpaFindStderr : IpaEnv := {
  extract := .ok ()
  findIpa := .ok ⟨"", "find: boom"⟩
  unzip := fun _ => .ok ()
  authority := fun _ => .ok ""
  security := .ok ""
  resign := fun _ _ => .ok ()
  zipExec := ⟨"OK", ""⟩ }

/-- A two-bundle run in which the first bundle signs cleanly and the second
bundle's unzip exec rejects. -/
def envSecondUnzipFail : IpaEnv := {
  extract := .ok ()
  findIpa := .ok ⟨"a.ipa\nb.ipa\n", ""⟩
  unzip := fun index => if index == 0 then .ok () else .error "mkdir: bundle 1"
  authority := fun _ => .ok "Cert A"
  security := .ok "  1) AAAA \"Cert A\"\n  1 valid identities found\n"
  resign := fun _ _ => .ok ()
  zipExec := ⟨"OK", ""⟩ }

/-- A run whose single bundle signs cleanly but whose packaging zip emits on
stderr. -/
def envSignedZipFail : IpaEnv := {
  extract := .ok ()
  findIpa := .ok ⟨"app.ipa\n", ""⟩
  unzip := fun _ => .ok ()
  authority := fun _ => .ok "Cert A"
  security := .ok "  1) AAAA \"Cert A\"\n  1 valid identities found\n"
  resign := fun _ _ => .ok ()
  zipExec := ⟨"", "zip error: disk full"⟩ }

/-- A run whose per-bundle unzip exec rejects. -/
def envUnzipFail : IpaEnv := {
  extract := .ok ()
  findIpa := .ok ⟨"app.ipa\n", ""⟩
  unzip := fun _ => .error "mkdir: cannot create"
  authority := fun _ => .ok ""
  security := .ok ""
  resign := fun _ _ => .ok ()
  zipExec := ⟨"OK", ""⟩ }

/-- A run whose authority-query exec rejects. -/
def envAuthorityFail : IpaEnv := {
  extract := .ok ()
  findIpa := .ok ⟨"app.ipa\n", ""⟩
  unzip := fun _ => .ok ()
  authority := fun _ => .error "codesign: query failed"
  security := .ok ""
  resign := fun _ _ => .ok ()
  zipExec := ⟨"OK", ""⟩ }

/-- A run whose security identity-listing exec rejects. -/
def envSecurityFail : IpaEnv := {
  extract := .ok ()
  findIpa := .ok ⟨"app.ipa\n", ""⟩
  unzip := fun _ => .ok ()
  authority := fun _ => .ok "Cert A"
  security := .error "security: not available"
  resign := fun _ _ => .ok ()
  zipExec := ⟨"OK", ""⟩ }

/-- A run whose extracted authority is contained in no valid identity. -/
def envResolveCrash : IpaEnv := {
  extract := .ok ()
  findIpa := .ok ⟨"app.ipa\n", ""⟩
  unzip := fun _ => .ok ()
  authority := fun _ => .ok "ZZZ Authority"
  security := .ok "  1) AAAA \"Cert A\"\n  1 valid identities found\n"
  resign := fun _ _ => .ok ()
  zipExec := ⟨"OK", ""⟩ }

/-- A run whose identity list parses to a single empty entry, so the
resolver returns `undefined` and the no-match error is thrown. -/
def envResolveFalsy : IpaEnv := {
  extract := .ok ()
  findIpa := .ok ⟨"app.ipa\n", ""⟩
  unzip := fun _ => .ok ()
  authority := fun _ => .ok ""
  security := .ok "  1)\n  0 valid identities found\n"
  resign := fun _ _ => .ok ()
  zipExec := ⟨"OK", ""⟩ }

/-- A run that resolves an identity but whose resign exec rejects. -/
def envResignFail : IpaEnv := {
  extract := .ok ()
  findIpa := .ok ⟨"app.ipa\n", ""⟩
  unzip := fun _ => .ok ()
  authority := fun _ => .ok "Cert A"
  security := .ok "  1) AAAA \"Cert A\"\n  1 valid identities found\n"
  resign := fun _ _ => .error "codesign: resign failed"
  zipExec := ⟨"OK", ""⟩ }

/-- C7 witnessed at every conjunct: failed extraction, failed locator exec,
locator stderr, an unzip failure at the *second* bundle after a cleanly
signed first bundle (loop transport), a packaging failure after a signed
bundle, and the per-bundle unzip, authority, security, resolver-TypeError,
no-match and resign failures — the caller sees each stage's own error. -/
theorem ipa_errors_propagate_witness :
    signipaarchive envExtractFail = .error (.execErr "unzip: cannot open archive") ∧
    signipaarchive envIpaFindFail = .error (.execErr "find: spawn failure") ∧
    signipaarchive envIpaFindStderr =
      .error (.thrown "Unable to find xcarchive(s) in package") ∧
    signipaarchive envSecondUnzipFail = .error (.execErr "mkdir: bundle 1") ∧
    signipaarchive envSignedZipFail = .error (.thrown "Unable to create delivery package") ∧
    ipaLoop envUnzipFail ["app.ipa"] 0 [] = .error (.execErr "mkdir: cannot create") ∧
    ipaLoop envAuthorityFail ["app.ipa"] 0 [] = .error (.execErr "codesign: query failed") ∧
    ipaLoop envSecurityFail ["app.ipa"] 0 [] = .error (.execErr "security: not available") ∧
    ipaLoop envResolveCrash ["app.ipa"] 0 [] = .error .typeError ∧
    ipaLoop envResolveFalsy ["app.ipa"] 0 [] =
      .error (.thrown "No match to current signing identity") ∧
    ipaLoop envResignFail ["app.ipa"] 0 [] = .error (.execErr "codesign: resign failed") :=
  ⟨ipa_errors_propagate.1 envExtractFail "unzip: cannot open archive" rfl,
   ipa_errors_propagate.2.1 envIpaFindFail "find: spawn failure" rfl rfl,
   ipa_errors_propagate.2.2.1 envIpaFindStderr ⟨"", "find: boom"⟩ rfl rfl (by decide),
   ipa_errors_propagate.2.2.2.1 envSecondUnzipFail ⟨"a.ipa\nb.ipa\n", ""⟩
     (.execErr "mkdir: bundle 1") rfl rfl rfl (by decide),
   ipa_errors_propagate.2.2.2.2.1 envSignedZipFail ⟨"app.ipa\n", ""⟩ ["app.ipa"]
     rfl rfl rfl (by decide) (by decide),
   ipa_errors_propagate.2.2.2.2.2.1 envUnzipFail "app.ipa" [] 0 []
     "mkdir: cannot create" rfl,
   ipa_errors_propagate.2.2.2.2.2.2.1 envAuthorityFail "app.ipa" [] 0 []
     "codesign: query failed" rfl rfl,
   ipa_errors_propagate.2.2.2.2.2.2.2.1 envSecurityFail "app.ipa" [] 0 []
     "Cert A" "security: not available" rfl rfl rfl,
   ipa_errors_propagate.2.2.2.2.2.2.2.2.1 envResolveCrash "app.ipa" [] 0 []
     "ZZZ Authority" "  1) AAAA \"Cert A\"\n  1 valid identities found\n"
     rfl rfl rfl (by decide),
   ipa_errors_propagate.2.2.2.2.2.2.2.2.2.1 envResolveFalsy "app.ipa" [] 0 []
     "" "  1)\n  0 valid identities found\n" none rfl rfl rfl (by decide) (Or.inl rfl),
   ipa_errors_propagate.2.2.2.2.2.2.2.2.2.2 envResignFail "app.ipa" [] 0 []
     "Cert A" "  1) AAAA \"Cert A\"\n  1 valid identities found\n" "AAAA"
     "codesign: resign failed" rfl rfl rfl (by decide) (by decide) rfl⟩

/-! ### Claim C8 -/

/-- A zero-bundle ipa run whose packaging zip happens to report success. -/
def envZeroBundles : IpaEnv := {
  extract := .ok ()
  findIpa := .ok ⟨"", ""⟩
  unzip := fun _ => .ok ()
  authority := fun _ => .ok ""
  security := .ok ""
  resign := fun _ _ => .ok ()
  zipExec := ⟨"OK", ""⟩ }

/-- C8 counterexample: with zero located bundles (empty locator stdout and
stderr) and a zip invocation that reports success, `signipaarchive` returns
a delivery archive — with zero entries — rather than failing: the code has
no zero-bundle check, so failure on empty input depends entirely on the
external zip tool rejecting an empty file list. -/
theorem zero_bundles_can_deliver_cex :
    signipaarchive envZeroBundles = .ok [] := by
  decide

/-- C8 amended: neither pipeline checks for zero located bundles; on empty
locator output each proceeds to packaging with an empty item list, and both
are guaranteed to fail only under the external assumption that the zip tool
rejects the empty file list (nonempty stderr or a `FAIL` report). -/
theorem zero_bundles_fail_when_zip_rejects
    (envX : XcEnv) (envI : IpaEnv)
    (_hfx : envX.findXc = .ok ⟨"", ""⟩) (hfi : envI.findIpa = .ok ⟨"", ""⟩)
    (hzx : (envX.zipExec.stderr != "" || jsIncludes envX.zipExec.stdout "FAIL") = true)
    (hzi : (envI.zipExec.stderr != "" || jsIncludes envI.zipExec.stdout "FAIL") = true) :
    (∀ entries, signxcarchive envX ≠ .ok entries) ∧
    (∀ entries, signipaarchive envI ≠ .ok entries) := by
  constructor
  · intro entries
    unfold signxcarchive
    cases hb : xcTryBody envX with
    | error e => simp
    | ok items => simp [packageForDelivery, hzx]
  · intro entries
    unfold signipaarchive
    cases hx : envI.extract with
    | error msg => simp
    | ok u =>
      cases u
      rw [hfi]
      have hempty : ipaResults "" = [] := by decide
      simp only []
      rw [if_neg (by decide)]
      simp [hempty, ipaLoop, packageForDelivery, hzi]

/-- C8 amended, witnessed at zero-bundle runs whose zip rejects the empty
file list. -/
theorem zero_bundles_fail_when_zip_rejects_witness :
    (∀ entries, signxcarchive {
        extract := .ok (), findXc := .ok ⟨"", ""⟩,
        exportTool := fun _ => .ok ⟨"", ""⟩,
        zipExec := ⟨"", "zip error: Nothing to do!"⟩ } ≠ .ok entries) ∧
    (∀ entries, signipaarchive {
        extract := .ok (), findIpa := .ok ⟨"", ""⟩,
        unzip := fun _ => .ok (), authority := fun _ => .ok "",
        security := .ok "", resign := fun _ _ => .ok (),
        zipExec := ⟨"", "zip error: Nothing to do!"⟩ } ≠ .ok entries) :=
  zero_bundles_fail_when_zip_rejects _ _ rfl rfl (by decide) (by decide)

/-! ### Claim C9 -/

/-- An archive whose only located xcarchive path is a `__MACOSX`
resource-fork shadow entry; its export reports a well-formed success. -/
def envMacosx : XcEnv := {
  extract := .ok ()
  findXc := .ok ⟨"a/__MACOSX/b.xcarchive\n", ""⟩
  exportTool := fun el =>
    if el == "a/__MACOSX/b.xcarchive" then .ok ⟨"a b c out/App.ipa\nEXPORT SUCCEEDED", ""⟩
    else .ok ⟨"", ""⟩
  zipExec := ⟨"OK", ""⟩ }

/-- C9 counterexample: the xcarchive pipeline applies no `__MACOSX` filter —
its element list keeps the metadata-shadow path, the export runs on it, and
its artifact even reaches the delivery archive.  Only the ipa pipeline
filters such paths. -/
theorem xcarchive_processes_macosx_cex :
    xcElements "a/__MACOSX/b.xcarchive\n" = ["a/__MACOSX/b.xcarchive"] ∧
    jsIncludes "a/__MACOSX/b.xcarchive" "__MACOSX" = true ∧
    signxcarchive envMacosx = .ok ["App.ipa"] := by
  decide

/-- C9 amended: the metadata-shadow filter exists only in the ipa pipeline:
every path in `signipaarchive`'s located-bundle list is free of the
`__MACOSX` marker (the xcarchive pipeline processes its locator output
unfiltered). -/
theorem ipa_filters_macosx (stdout p : String) (hp : p ∈ ipaResults stdout) :
    jsIncludes p "__MACOSX" = false := by
  unfold ipaResults at hp
  have hcond := List.of_mem_filter hp
  simp only [Bool.and_eq_true, Bool.not_eq_true'] at hcond
  exact hcond.2

/-- C9 amended, witnessed: a clean path survives the ipa filter and carries
no marker, while the shadow path of the same locator output is dropped. -/
theorem ipa_filters_macosx_witness :
    jsIncludes "a.ipa" "__MACOSX" = false ∧
    ipaResults "a.ipa\nx/__MACOSX/y.ipa\n" = ["a.ipa"] :=
  ⟨ipa_filters_macosx "a.ipa\nx/__MACOSX/y.ipa\n" "a.ipa" (by decide), by decide⟩

/-! ### Claim C10 -/

/-- A run that reaches packaging with one collected item and whose zip
reports `FAIL`. -/
def envVersionsDiff : XcEnv := {
  extract := .ok ()
  findXc := .ok ⟨"A.xcarchive", ""⟩
  exportTool := fun _ => .ok ⟨"a b c out/App.ipa\nEXPORT SUCCEEDED", ""⟩
  zipExec := ⟨"FAIL", ""⟩ }

/-- C10 counterexample: the two `signxcarchive` implementations are not
behaviorally equivalent — on a packaging failure the older inline version
catches and rejects opaquely, while the newer `packageForDelivery` version
propagates the original packaging error, so the caller observes different
values for the same input. -/
theorem versions_differ_on_packaging_cex :
    signxcarchiveOld envVersionsDiff = .error .undef ∧
    signxcarchive envVersionsDiff = .error (.cause (.thrown "Unable to create delivery package")) ∧
    signxcarchiveOld envVersionsDiff ≠ signxcarchive envVersionsDiff := by
  decide

/-- C10 amended: the two versions agree on every run whose failure (if any)
occurs before packaging — both reject opaquely — and on every successful
single-item run whose item is its own basename; they differ exactly in the
packaging stage's failure behavior: the older version catches it into the
opaque rejection, the newer returns its packaging promise un-awaited and so
propagates the original packaging error. -/
theorem versions_equiv_amended (env : XcEnv) :
    (∀ e, xcTryBody env = .error e →
      signxcarchiveOld env = .error .undef ∧ signxcarchive env = .error .undef) ∧
    (∀ items, xcTryBody env = .ok items →
      (env.zipExec.stderr != "" || jsIncludes env.zipExec.stdout "FAIL") = true →
      signxcarchiveOld env = .error .undef ∧
      signxcarchive env = .error (.cause (.thrown "Unable to create delivery package"))) ∧
    (∀ x, xcTryBody env = .ok [x] → jsBasename x = x →
      (env.zipExec.stderr != "" || jsIncludes env.zipExec.stdout "FAIL") = false →
      signxcarchiveOld env = .ok [x] ∧ signxcarchive env = .ok [x]) := by
  refine ⟨?_, ?_, ?_⟩
  · intro e he
    exact ⟨by simp [signxcarchiveOld, he], by simp [signxcarchive, he]⟩
  · intro items hi hz
    constructor
    · simp [signxcarchiveOld, hi, hz]
    · simp [signxcarchive, hi, packageForDelivery, hz]
  · intro x hi hbx hz
    constructor
    · simp [signxcarchiveOld, hi, hz, oldZipArgs, joinWithComma]
    · simp [signxcarchive, hi, packageForDelivery, hz, hbx]

/-- A run failing at the locator stage. -/
def envEquivFindErr : XcEnv := {
  extract := .ok ()
  findXc := .ok ⟨"", "find: boom"⟩
  exportTool := fun _ => .ok ⟨"", ""⟩
  zipExec := ⟨"OK", ""⟩ }

/-- A fully successful run collecting the slash-free item `App.ipa`. -/
def envEquivOk : XcEnv := {
  extract := .ok ()
  findXc := .ok ⟨"A.xcarchive", ""⟩
  exportTool := fun _ => .ok ⟨"a b c App.ipa\nEXPORT SUCCEEDED", ""⟩
  zipExec := ⟨"OK", ""⟩ }

/-- A run reaching packaging with one item, whose zip reports `FAIL`. -/
def envEquivZipFail : XcEnv := {
  extract := .ok ()
  findXc := .ok ⟨"A.xcarchive", ""⟩
  exportTool := fun _ => .ok ⟨"a b c App.ipa\nEXPORT SUCCEEDED", ""⟩
  zipExec := ⟨"FAIL", ""⟩ }

/-- C10 amended, witnessed on all three branches: agreement on a
pre-packaging failure, divergence on a packaging failure, agreement on a
clean single-item run. -/
theorem versions_equiv_amended_witness :
    (signxcarchiveOld envEquivFindErr = .error .undef ∧
      signxcarchive envEquivFindErr = .error .undef) ∧
    (signxcarchiveOld envEquivZipFail = .error .undef ∧
      signxcarchive envEquivZipFail =
        .error (.cause (.thrown "Unable to create delivery package"))) ∧
    (signxcarchiveOld envEquivOk = .ok ["App.ipa"] ∧
      signxcarchive envEquivOk = .ok ["App.ipa"]) :=
  ⟨(versions_equiv_amended envEquivFindErr).1
      (.thrown "Unable to find xcarchive(s) in package") (by decide),
   (versions_equiv_amended envEquivZipFail).2.1 ["App.ipa"] (by decide) (by decide),
   (versions_equiv_amended envEquivOk).2.2 "App.ipa" (by decide) (by decide) (by decide)⟩

end SigningAgent
